import Mathlib

/-!
Shallow embedding of `surveySimPP.py` (survey_simulator_post_processing).

The detection table (`oif`) is modelled as a list of labelled rows, mirroring
a pandas `DataFrame`: each row carries its index label (a `Nat`) and a partial
map from column names to cells.  The pandas/numpy primitives used by `run`
(`np.where`, `DataFrame.drop` by label, `reset_index(drop=True)`, `iloc`,
positional column assignment, `lookup`) are modelled explicitly, including the
positions-versus-labels distinction that the script relies on.

The `modules/PP*` files are not part of the source tree; the pipeline is
therefore parameterised over their behaviour (structure `Modules`): every
claim proved here holds for arbitrary module behaviour, exactly as the
orchestration code in `surveySimPP.py` determines.
-/

namespace SurveySimPP

/-- A cell of the detection table: pandas columns here hold floats (modelled
exactly as rationals) or strings (the `Filter` column). -/
inductive Cell where
  | num (q : ℚ)
  | str (s : String)
deriving DecidableEq

/-- A row of a dataframe: a partial map from column names to cells. -/
structure Row where
  cells : String → Option Cell

/-- Numeric view of a column of a row (0 if absent / non-numeric; in the
script the columns read numerically are always previously assigned floats). -/
def Row.num (r : Row) (c : String) : ℚ :=
  match r.cells c with
  | some (Cell.num q) => q
  | _ => 0

/-- Raw cell view with pandas-style default. -/
def Row.cell (r : Row) (c : String) : Cell :=
  (r.cells c).getD (Cell.num 0)

/-- Overwrite one column of a row. -/
def setCell (r : Row) (c : String) (v : Cell) : Row :=
  ⟨fun c' => if c' = c then some v else r.cells c'⟩

/-- A dataframe: rows carrying their pandas index label. -/
abbrev Frame := List (Nat × Row)

/-- Pandas `df[c] = f(df[...])` for a per-row (index-aligned series) computation:
assign column `c` of every row from a function of that row. -/
def mapCol (df : Frame) (c : String) (f : Row → Cell) : Frame :=
  df.map fun x => (x.1, setCell x.2 c (f x.2))

/-- Positional column assignment (`df[c] = arr` for an ndarray `arr`):
row at position `i` receives `g i`.  `g` is typically a module output
partially applied to the frame the module was called on. -/
def setColPosAux (c : String) (g : Nat → Cell) : Nat → Frame → Frame
  | _, [] => []
  | i, x :: xs => (x.1, setCell x.2 c (g i)) :: setColPosAux c g (i + 1) xs

def setColPos (df : Frame) (c : String) (g : Nat → Cell) : Frame :=
  setColPosAux c g 0 df

/-- Numpy `np.where(cond)[0]`: 0-based positions of the rows satisfying the
predicate (which may also read the position, for comparisons against a
positionally aligned ndarray such as `lim_mag`). -/
def whPositionsAux (p : Nat → Row → Bool) : Nat → Frame → List Nat
  | _, [] => []
  | i, x :: xs =>
      if p i x.2 then i :: whPositionsAux p (i + 1) xs
      else whPositionsAux p (i + 1) xs

def whPositions (df : Frame) (p : Nat → Row → Bool) : List Nat :=
  whPositionsAux p 0 df

/-- Pandas `df.drop(labels, inplace=True)`: remove the rows whose index label is in
the list.  Note: labels, not positions. -/
def dropLabels (df : Frame) (labs : List Nat) : Frame :=
  df.filter fun x => !(labs.contains x.1)

/-- Pandas `df.reset_index(drop=True)`: relabel rows 0..n-1 in order. -/
def resetIndexAux : Nat → Frame → Frame
  | _, [] => []
  | i, x :: xs => (i, x.2) :: resetIndexAux (i + 1) xs

def resetIndex (df : Frame) : Frame :=
  resetIndexAux 0 df

/-- Pandas `df.iloc[positions]`: select rows by position, keeping their labels. -/
def ilocSelect (df : Frame) (pos : List Nat) : Frame :=
  pos.filterMap fun i => df.get? i

/-- Pandas `df.drop(columns=cs)` (NOT in place: returns a new frame). -/
def dropColumns (df : Frame) (cs : List String) : Frame :=
  df.map fun x => (x.1, Row.mk fun c => if cs.contains c then none else x.2.cells c)

/-- Numeric value of column `c` of the row at position `i` (used to model
positionally-aligned lookup results such as `lim_mag`). -/
def numAt (df : Frame) (i : Nat) (c : String) : ℚ :=
  match df.get? i with
  | some x => x.2.num c
  | none => 0

/-- The index labels of a frame agree with row positions (the state after
`reset_index(drop=True)`, preserved by column assignments). -/
def labelsOk (df : Frame) : Prop :=
  ∀ i x, df.get? i = some x → x.1 = i

/-- The pandas index is contiguous 0..n-1. -/
def contiguous (df : Frame) : Prop :=
  df.map Prod.fst = List.range df.length

/- ### Column names used by `run` (string literals in the script) -/

def cMaginFilterTrue : String := "MaginFilterTrue"
def cAstrometricSigmaMas : String := "AstrometricSigma(mas)"
def cPhotometricSigmaMag : String := "PhotometricSigma(mag)"
def cSNR : String := "SNR"
def cAstrometricSigmaDeg : String := "AstrometricSigma(deg)"
def cMaginFilter : String := "MaginFilter"
def cDmagDetect : String := "dmagDetect"
def cFieldID : String := "FieldID"
def cAstRA : String := "AstRA(deg)"
def cAstDec : String := "AstDec(deg)"
def cAstRATrue : String := "AstRATrue(deg)"
def cAstDecTrue : String := "AstDecTrue(deg)"
def cFilter : String := "Filter"

/- ### External collaborators of `run` -/

/-- The pointing database (`surveydb` dataframe), abstracted by the two
`DataFrame.lookup` column accessors that `run` itself uses.  A label (the
`FieldID` value, stored as a float in the table) is mapped to that
exposure's five-sigma limiting magnitude / filter name. -/
structure SurveyDB where
  fiveSigmaDepth : ℚ → ℚ
  filterName : ℚ → String

/-- Behaviour of the imported `modules/PP*` functions (their code is outside
`surveySimPP.py`; the pipeline is proved for arbitrary behaviour).  A module
returning an array is modelled as a function from the frame it is called on
and the row position to the array entry at that position.
`footPrintFilter(oif, pointings, detectors)` returns row positions. -/
structure Modules where
  PPTranslateMagnitude : Frame → SurveyDB → Frame → Nat → ℚ
  addUncertainties_astSigma : Frame → SurveyDB → Nat → ℚ
  addUncertainties_photSigma : Frame → SurveyDB → Nat → ℚ
  addUncertainties_SNR : Frame → SurveyDB → Nat → ℚ
  randomizePhotometry : Frame → Nat → ℚ
  PPTrailingLoss : Frame → SurveyDB → Nat → ℚ
  randomizeAstrometry_RA : Frame → Nat → ℚ
  randomizeAstrometry_Dec : Frame → Nat → ℚ
  footPrintFilter : Frame → Frame → Frame → List Nat

/-- The file system / data stores: what each reading primitive returns for a
given path.  (`pointingsOf` is the second SQL query on the same connection.) -/
structure World where
  read_hdf : String → Frame
  surveydbOf : String → SurveyDB
  read_csv_whitespace : String → Frame
  read_csv : String → Frame
  pointingsOf : String → Frame

/- ### Pipeline stages (lines 168-200 of surveySimPP.py) -/

/-- Line 169: `oif["MaginFilterTrue"] = PPTranslateMagnitude.PPTranslateMagnitude(oif, surveydb, colors)`. -/
def translateStage (M : Modules) (sdb : SurveyDB) (colors : Frame) (oif : Frame) : Frame :=
  setColPos oif cMaginFilterTrue fun i => Cell.num (M.PPTranslateMagnitude oif sdb colors i)

/-- Line 171: the `addUncertainties` triple is computed from `oif`, then the
three columns are assigned. -/
def uncertaintiesStage (M : Modules) (sdb : SurveyDB) (oif : Frame) : Frame :=
  let a := M.addUncertainties_astSigma oif sdb
  let p := M.addUncertainties_photSigma oif sdb
  let s := M.addUncertainties_SNR oif sdb
  setColPos
    (setColPos
      (setColPos oif cAstrometricSigmaMas fun i => Cell.num (a i))
      cPhotometricSigmaMag fun i => Cell.num (p i))
    cSNR fun i => Cell.num (s i)

/-- Line 172: `oif["AstrometricSigma(deg)"] = oif['AstrometricSigma(mas)'] / 3600 / 1000`. -/
def sigmaDegStage (oif : Frame) : Frame :=
  mapCol oif cAstrometricSigmaDeg fun r => Cell.num (r.num cAstrometricSigmaMas / 3600 / 1000)

/-- Lines 174-175: `oif.drop(np.where(oif["SNR"] <= 2.)[0], inplace=True)`
followed by `oif.reset_index(drop=True, inplace=True)`.  `np.where` yields
positions; `drop` removes by label. -/
def snrFilterStage (oif : Frame) : Frame :=
  resetIndex (dropLabels oif (whPositions oif fun _ r => decide (r.num cSNR ≤ 2)))

/-- Line 177: `oif["MaginFilter"] = PPRandomizeMeasurements.randomizePhotometry(oif, ...)`. -/
def photRandStage (M : Modules) (oif : Frame) : Frame :=
  setColPos oif cMaginFilter fun i => Cell.num (M.randomizePhotometry oif i)

/-- Line 180: `oif['dmagDetect'] = PPTrailingLoss.PPTrailingLoss(oif, surveydb)`. -/
def trailingLossStage (M : Modules) (sdb : SurveyDB) (oif : Frame) : Frame :=
  setColPos oif cDmagDetect fun i => Cell.num (M.PPTrailingLoss oif sdb i)

/-- Lines 182-186: `lim_mag = surveydb.lookup(oif["FieldID"], ['fiveSigmaDepth']*len(oif.index))`
(a positionally aligned array), then
`oif.drop(np.where(oif["MaginFilter"] + oif["dmagDetect"] >= lim_mag)[0], inplace=True)`
and a reset of the index. -/
def faintFilterStage (sdb : SurveyDB) (oif : Frame) : Frame :=
  let lim_mag : Nat → ℚ := fun i => sdb.fiveSigmaDepth (numAt oif i cFieldID)
  resetIndex (dropLabels oif
    (whPositions oif fun i r => decide (lim_mag i ≤ r.num cMaginFilter + r.num cDmagDetect)))

/-- Lines 189-191: copy the true coordinates into `AstRATrue(deg)` and
`AstDecTrue(deg)`, then overwrite `AstRA(deg)`, `AstDec(deg)` with the
`randomizeAstrometry` pair (computed from the frame holding the copies). -/
def astRandStage (M : Modules) (oif : Frame) : Frame :=
  let oifA := mapCol oif cAstRATrue fun r => r.cell cAstRA
  let oifB := mapCol oifA cAstDecTrue fun r => r.cell cAstDec
  let ra := M.randomizeAstrometry_RA oifB
  let dec := M.randomizeAstrometry_Dec oifB
  setColPos (setColPos oifB cAstRA fun i => Cell.num (ra i)) cAstDec fun i => Cell.num (dec i)

/-- Lines 195-196: `on_sensor = footPrintFilter(oif, pointings, detectors)`;
`oif = oif.iloc[on_sensor]`.  Note: no reset of the index here. -/
def footprintStage (M : Modules) (pointings detectors : Frame) (oif : Frame) : Frame :=
  ilocSelect oif (M.footPrintFilter oif pointings detectors)

/-- Pandas `astype(int)` cast of a float value (truncation toward zero). -/
def ratTrunc (q : ℚ) : ℤ :=
  if 0 ≤ q then q.floor else q.ceil

/-- Lines 198-200: cast `FieldID` to int, attach the exposure filter name by
`surveydb.lookup`, and evaluate `oif.drop(columns=["AstrometricSigma(mas)"])`
whose result is discarded (the drop is not in place). -/
def assembleStage (sdb : SurveyDB) (oif : Frame) : Frame :=
  let oif1 := mapCol oif cFieldID fun r => Cell.num ((ratTrunc (r.num cFieldID) : ℤ) : ℚ)
  let oif2 := setColPos oif1 cFilter fun i => Cell.str (sdb.filterName (numAt oif1 i cFieldID))
  let _discarded := dropColumns oif2 [cAstrometricSigmaMas]
  oif2

/-- Lines 151 and 168-172: load (with `reset_index(drop=True)`), translate
magnitudes, add uncertainties, convert the astrometric sigma to degrees. -/
def preSnrTable (M : Modules) (sdb : SurveyDB) (colors : Frame) (oifRaw : Frame) : Frame :=
  sigmaDegStage (uncertaintiesStage M sdb (translateStage M sdb colors (resetIndex oifRaw)))

/-- The detection table right after the SNR filter (line 175). -/
def afterSnrTable (M : Modules) (sdb : SurveyDB) (colors : Frame) (oifRaw : Frame) : Frame :=
  snrFilterStage (preSnrTable M sdb colors oifRaw)

/-- The detection table right after the faint-detection filter (line 186). -/
def afterFaintTable (M : Modules) (sdb : SurveyDB) (colors : Frame) (oifRaw : Frame) : Frame :=
  faintFilterStage sdb (trailingLossStage M sdb (photRandStage M (afterSnrTable M sdb colors oifRaw)))

/-- The detection table right after the footprint filter (line 196). -/
def afterFootprintTable (M : Modules) (sdb : SurveyDB) (colors pointings detectors : Frame)
    (oifRaw : Frame) : Frame :=
  footprintStage M pointings detectors (astRandStage M (afterFaintTable M sdb colors oifRaw))

/-- The final detection table handed to the output writer (line 200 onward). -/
def pipelineTable (M : Modules) (sdb : SurveyDB) (colors pointings detectors : Frame)
    (oifRaw : Frame) : Frame :=
  assembleStage sdb (afterFootprintTable M sdb colors pointings detectors oifRaw)

/- ### Configuration and startup (lines 70-145 of surveySimPP.py) -/

/-- A parsed configuration: section name, key name, optional value (all
configparser values are strings). -/
abbrev Cfg := String → String → Option String

/-- How a run can terminate before producing output: an uncaught Python
exception (`KeyError` from a direct `config[s][k]` access, `ValueError`
from `int()`/`float()`, `IndexError` from list indexing) or an explicit
`sys.exit`, with or without a message. -/
inductive Fatal where
  | keyError (s k : String)
  | valueError (raw : String)
  | indexError
  | exitMsg (msg : String)
  | exitNoMsg
deriving DecidableEq

/-- Section names. -/
def sGENERAL : String := "GENERAL"
def sINPUTFILES : String := "INPUTFILES"
def sFILTERS : String := "FILTERS"
def sFILTERINGPARAMETERS : String := "FILTERINGPARAMETERS"
def sOUTPUTFORMAT : String := "OUTPUTFORMAT"

/-- Key names. -/
def kTestvalue : String := "testvalue"
def kOifoutput : String := "oifoutput"
def kColourinput : String := "colourinput"
def kCamerafootprint : String := "camerafootprint"
def kPointingdatabase : String := "pointingdatabase"
def kMainfilter : String := "mainfilter"
def kOthercolours : String := "othercolours"
def kResfilters : String := "resfilters"
def kSSPDetectionEfficiency : String := "SSPDetectionEfficiency"
def kFillfactor : String := "fillfactor"
def kMinTracklet : String := "minTracklet"
def kNoTracklets : String := "noTracklets"
def kTrackletInterval : String := "trackletInterval"
def kBrightLimit : String := "brightLimit"
def kInSepThreshold : String := "inSepThreshold"
def kOutpath : String := "outpath"
def kOutfilestem : String := "outfilestem"
def kOutputformat : String := "outputformat"

/-- The `config.read_dict` defaults (lines 73-96); numbers are stored by
configparser as their string forms. -/
def defaults : Cfg := fun s k =>
  if s = sINPUTFILES then
    if k = kOifoutput then some ("test.csv")
    else if k = kColourinput then some ("test_colors.csv")
    else if k = kCamerafootprint then some ("detectors_corners.csv")
    else if k = kPointingdatabase then some ("baseline_nexp2_v1.7.1_10yrs.db")
    else none
  else if s = sFILTERS then
    if k = kMainfilter then some ("V")
    else if k = kOthercolours then some ("V-u, V-g, V-r, V-i, V-z, V-y")
    else if k = kResfilters then some ("V, u, g, r, i, z, y")
    else none
  else if s = sFILTERINGPARAMETERS then
    if k = kSSPDetectionEfficiency then some ("1.0")
    else if k = kFillfactor then some ("1.0")
    else if k = kMinTracklet then some ("2")
    else if k = kNoTracklets then some ("3")
    else if k = kTrackletInterval then some ("15.0")
    else if k = kBrightLimit then some ("16.0")
    else if k = kInSepThreshold then some ("0.5")
    else none
  else if s = sOUTPUTFORMAT then
    if k = kOutpath then some ("./")
    else if k = kOutfilestem then some ("testout")
    else if k = kOutputformat then some ("hdf5")
    else none
  else none

/-- The config object after `read_dict(defaults)` then `read(configfile)`:
values from the file override the defaults. -/
def effConfig (user : Cfg) : Cfg := fun s k =>
  (user s k).orElse fun _ => defaults s k

/-- Helper `get_or_exit(config, section, key, message)` (lines 53-59): a missing
key terminates via `sys.exit(message)`. -/
def get_or_exit (config : Cfg) (s k msg : String) : Except Fatal String :=
  match config s k with
  | some v => Except.ok v
  | none => Except.error (Fatal.exitMsg msg)

/-- A direct `config[section][key]` access (or `config.get(section, key)`),
raising on a missing key. -/
def getKeyRaw (config : Cfg) (s k : String) : Except Fatal String :=
  match config s k with
  | some v => Except.ok v
  | none => Except.error (Fatal.keyError s k)

/-- Python `int(...)` over an abstract integer parser: failure raises
`ValueError`. -/
def pyInt (pint : String → Option Int) (v : String) : Except Fatal Int :=
  match pint v with
  | some n => Except.ok n
  | none => Except.error (Fatal.valueError v)

/-- Python `float(...)` over an abstract float parser (floats modelled
exactly as rationals): failure raises `ValueError`. -/
def pyFloat (pfloat : String → Option ℚ) (v : String) : Except Fatal ℚ :=
  match pfloat v with
  | some q => Except.ok q
  | none => Except.error (Fatal.valueError v)

/-- The filter-list validation (lines 115-120): first the length check
`len(othercolours) != len(resfilters)-1` (Python integer arithmetic, hence
over ℤ), then `mainfilter != resfilters[0]`; each failure is a bare
`sys.exit()`.  Indexing `resfilters[0]` on an empty list would raise
`IndexError`, but both lists come from `str.split` and are never empty. -/
def checkFilters (mainfilter : String) (othercolours resfilters : List String) : Option Fatal :=
  if (othercolours.length : ℤ) ≠ (resfilters.length : ℤ) - 1 then some Fatal.exitNoMsg
  else
    match resfilters with
    | [] => some Fatal.indexError
    | f :: _ => if mainfilter ≠ f then some Fatal.exitNoMsg else none

/-- All values the startup section of `run` binds from the configuration. -/
structure Params where
  testvalue : Int
  oifoutput : String
  colourinput : String
  pointingdatabase : String
  footprint : String
  mainfilter : String
  othercolours : List String
  resfilters : List String
  SSPDetectionEfficiency : ℚ
  fillfactor : ℚ
  brightLimit : ℚ
  inSepThreshold : ℚ
  minTracklet : Int
  noTracklets : Int
  trackletInterval : ℚ
  outpath : String
  outfilestem : String
  outputformat : String
deriving DecidableEq

/-- Python `v.split(sep)` on the character list: split at every separator;
the empty string yields one empty piece. -/
def pySplitAux (sep : Char) : List Char → List Char → List (List Char)
  | [], acc => [acc.reverse]
  | c :: cs, acc =>
      if c = sep then acc.reverse :: pySplitAux sep cs []
      else pySplitAux sep cs (c :: acc)

def pySplit (v : String) (sep : Char) : List String :=
  (pySplitAux sep v.toList []).map fun cs => String.mk cs

/-- Python `str.strip()`: remove leading and trailing whitespace. -/
def pyStrip (v : String) : String :=
  String.mk (((v.toList.dropWhile Char.isWhitespace).reverse.dropWhile Char.isWhitespace).reverse)

/-- Python `[e.strip() for e in v.split(',')]` (lines 112-113). -/
def splitTrim (v : String) : List String :=
  (pySplit v ',').map pyStrip

/-- Lines 103-145 of `run`, operating on the merged config: every
configuration read, parse and validation, in source order. -/
def startupCfg (config : Cfg) (pint : String → Option Int) (pfloat : String → Option ℚ) :
    Except Fatal Params :=
  match getKeyRaw config sGENERAL kTestvalue with
  | Except.error e => Except.error e
  | Except.ok tvs =>
  match pyInt pint tvs with
  | Except.error e => Except.error e
  | Except.ok testvalue =>
  match get_or_exit config sINPUTFILES kOifoutput ("ERROR: no ObjectInField output file provided.") with
  | Except.error e => Except.error e
  | Except.ok oifoutput =>
  match get_or_exit config sINPUTFILES kColourinput ("ERROR: no colour input file provided.") with
  | Except.error e => Except.error e
  | Except.ok colourinput =>
  match get_or_exit config sINPUTFILES kPointingdatabase ("ERROR: no pointing database provided.") with
  | Except.error e => Except.error e
  | Except.ok pointingdatabase =>
  match get_or_exit config sINPUTFILES kCamerafootprint ("ERROR: no footprint provided.") with
  | Except.error e => Except.error e
  | Except.ok footprint =>
  match get_or_exit config sFILTERS kMainfilter ("ERROR: main filter not defined.") with
  | Except.error e => Except.error e
  | Except.ok mainfilter =>
  match getKeyRaw config sFILTERS kOthercolours with
  | Except.error e => Except.error e
  | Except.ok ocRaw =>
  match getKeyRaw config sFILTERS kResfilters with
  | Except.error e => Except.error e
  | Except.ok rfRaw =>
  match checkFilters mainfilter (splitTrim ocRaw) (splitTrim rfRaw) with
  | some e => Except.error e
  | none =>
  match getKeyRaw config sFILTERINGPARAMETERS kSSPDetectionEfficiency with
  | Except.error e => Except.error e
  | Except.ok sspRaw =>
  match pyFloat pfloat sspRaw with
  | Except.error e => Except.error e
  | Except.ok sspde =>
  match getKeyRaw config sFILTERINGPARAMETERS kFillfactor with
  | Except.error e => Except.error e
  | Except.ok ffRaw =>
  match pyFloat pfloat ffRaw with
  | Except.error e => Except.error e
  | Except.ok fillfactor =>
  match getKeyRaw config sFILTERINGPARAMETERS kBrightLimit with
  | Except.error e => Except.error e
  | Except.ok blRaw =>
  match pyFloat pfloat blRaw with
  | Except.error e => Except.error e
  | Except.ok brightLimit =>
  match getKeyRaw config sFILTERINGPARAMETERS kInSepThreshold with
  | Except.error e => Except.error e
  | Except.ok istRaw =>
  match pyFloat pfloat istRaw with
  | Except.error e => Except.error e
  | Except.ok inSepThreshold =>
  match getKeyRaw config sFILTERINGPARAMETERS kMinTracklet with
  | Except.error e => Except.error e
  | Except.ok mtRaw =>
  match pyInt pint mtRaw with
  | Except.error e => Except.error e
  | Except.ok minTracklet =>
  if minTracklet < 1 then Except.error Fatal.exitNoMsg else
  match getKeyRaw config sFILTERINGPARAMETERS kNoTracklets with
  | Except.error e => Except.error e
  | Except.ok ntRaw =>
  match pyInt pint ntRaw with
  | Except.error e => Except.error e
  | Except.ok noTracklets =>
  if noTracklets < 1 then Except.error Fatal.exitNoMsg else
  match getKeyRaw config sFILTERINGPARAMETERS kTrackletInterval with
  | Except.error e => Except.error e
  | Except.ok tiRaw =>
  match pyFloat pfloat tiRaw with
  | Except.error e => Except.error e
  | Except.ok trackletInterval =>
  if trackletInterval ≤ 0 then Except.error Fatal.exitNoMsg else
  match get_or_exit config sOUTPUTFORMAT kOutpath ("ERROR: out path not specified.") with
  | Except.error e => Except.error e
  | Except.ok outpath =>
  match get_or_exit config sOUTPUTFORMAT kOutfilestem ("ERROR: name of output file stem not specified.") with
  | Except.error e => Except.error e
  | Except.ok outfilestem =>
  match get_or_exit config sOUTPUTFORMAT kOutputformat ("ERROR: output format not specified.") with
  | Except.error e => Except.error e
  | Except.ok outputformat =>
  if outputformat ≠ "csv" ∧ outputformat ≠ "sqlite3" ∧ outputformat ≠ "hdf5" then
    Except.error (Fatal.exitMsg ("ERROR: output format should be either csv or sqlite3."))
  else
    Except.ok
      { testvalue := testvalue
        oifoutput := oifoutput
        colourinput := colourinput
        pointingdatabase := pointingdatabase
        footprint := footprint
        mainfilter := mainfilter
        othercolours := splitTrim ocRaw
        resfilters := splitTrim rfRaw
        SSPDetectionEfficiency := sspde
        fillfactor := fillfactor
        brightLimit := brightLimit
        inSepThreshold := inSepThreshold
        minTracklet := minTracklet
        noTracklets := noTracklets
        trackletInterval := trackletInterval
        outpath := outpath
        outfilestem := outfilestem
        outputformat := outputformat }

/-- Startup on a user configuration file: defaults merged first (lines 70-101). -/
def startup (user : Cfg) (pint : String → Option Int) (pfloat : String → Option ℚ) :
    Except Fatal Params :=
  startupCfg (effConfig user) pint pfloat

/-- The whole of `run` up to the output writer: either a fatal termination,
or the final detection table, together with the list of data files opened,
in order (lines 151, 154, 159, 162).  The camera-footprint read at line 162
uses the string literal `'detectors_corners.csv'`, not the configured path. -/
def run (M : Modules) (W : World) (user : Cfg)
    (pint : String → Option Int) (pfloat : String → Option ℚ) :
    Except Fatal Frame × List String :=
  match startup user pint pfloat with
  | Except.error e => (Except.error e, [])
  | Except.ok P =>
      let oifRaw := W.read_hdf P.oifoutput
      let sdb := W.surveydbOf P.pointingdatabase
      let colors := W.read_csv_whitespace P.colourinput
      let detectors_df := W.read_csv ("detectors_corners.csv")
      let pointings := W.pointingsOf P.pointingdatabase
      (Except.ok (pipelineTable M sdb colors pointings detectors_df oifRaw),
        [ P.oifoutput, P.pointingdatabase, P.colourinput, ("detectors_corners.csv") ])

/- ### Concrete sample data (for witnesses and counterexamples) -/

/-- A sample input detection row: FieldID 0, true position (1, 2), reference
magnitude 20, as the idealised detection catalogue would provide. -/
def row0 : Row :=
  ⟨fun c =>
    if c = cFieldID then some (Cell.num 0)
    else if c = cAstRA then some (Cell.num 1)
    else if c = cAstDec then some (Cell.num 2)
    else none⟩

/-- A default row used with `List.headD`. -/
def dRow : Nat × Row := (0, ⟨fun _ => none⟩)

/-- A one-detection input catalogue. -/
def oifW : Frame := [ (0, row0) ]

/-- A two-detection input catalogue. -/
def oifW2 : Frame := [ (0, row0), (1, row0) ]

/-- A sample pointing database: every exposure has limiting magnitude 100
and filter name `r`. -/
def sdbW : SurveyDB :=
  { fiveSigmaDepth := fun _ => 100
    filterName := fun _ => "r" }

/-- Sample module behaviour under which every detection passes every filter
(SNR 10, magnitudes far above the limit, footprint keeps all positions). -/
def M0 : Modules :=
  { PPTranslateMagnitude := fun _ _ _ _ => 20
    addUncertainties_astSigma := fun _ _ _ => 36
    addUncertainties_photSigma := fun _ _ _ => 1
    addUncertainties_SNR := fun _ _ _ => 10
    randomizePhotometry := fun _ _ => 20
    PPTrailingLoss := fun _ _ _ => 0
    randomizeAstrometry_RA := fun _ _ => 5
    randomizeAstrometry_Dec := fun _ _ => 6
    footPrintFilter := fun oif _ _ => List.range oif.length }

/-- Sample module behaviour whose footprint filter keeps only the detection
at position 1 (dropping the row at position 0). -/
def Mcex : Modules :=
  { M0 with footPrintFilter := fun _ _ _ => [ 1 ] }

/-- A sample file system serving the one-detection catalogue for every path. -/
def W0 : World :=
  { read_hdf := fun _ => oifW
    surveydbOf := fun _ => sdbW
    read_csv_whitespace := fun _ => []
    read_csv := fun _ => []
    pointingsOf := fun _ => [] }

/-- Digit-string accumulator for `pint0`. -/
def pyDigits : List Char → Option Nat → Option Nat
  | [], acc => acc
  | c :: cs, acc =>
      if c.isDigit then pyDigits cs (some ((acc.getD 0) * 10 + (c.toNat - 48)))
      else none

/-- Integer parser used as the behaviour of Python `int` in witnesses. -/
def pint0 : String → Option Int := fun v =>
  match v.toList with
  | '-' :: rest => (pyDigits rest none).map fun n => -(n : Int)
  | l => (pyDigits l none).map fun n => (n : Int)

/-- Float parser used as the behaviour of Python `float` in witnesses
(covers the default configuration values). -/
def pfloat0 : String → Option ℚ := fun v =>
  if v = "1.0" then some 1
  else if v = "15.0" then some 15
  else if v = "16.0" then some 16
  else if v = "0.5" then some (1 / 2)
  else none

/-- A user configuration file providing only the mandatory `GENERAL
testvalue` key (everything else comes from the defaults). -/
def cfgG : Cfg := fun s k =>
  if s = sGENERAL ∧ k = kTestvalue then some ("7") else none

/-- Configuration `cfgG` with `SSPDetectionEfficiency` overridden to 0.5. -/
def cfgSsp : Cfg := fun s k =>
  if s = sFILTERINGPARAMETERS ∧ k = kSSPDetectionEfficiency then some ("0.5") else cfgG s k

/-- Configuration `cfgG` with the camera-footprint path overridden. -/
def cfgFoot : Cfg := fun s k =>
  if s = sINPUTFILES ∧ k = kCamerafootprint then some ("my_footprint.csv") else cfgG s k

/-- The empty user configuration (no sections at all). -/
def cfgNone : Cfg := fun _ _ => none

/-- The `footprint` value bound at startup (empty string on fatal startup). -/
def footprintOf : Except Fatal Params → String
  | Except.ok p => p.footprint
  | Except.error _ => ""

attribute [local semireducible] Rat.add Rat.mul Rat.sub Rat.inv

/- ### Basic lemmas about the frame operations -/

@[simp] theorem setCell_cells_self (r : Row) (c : String) (v : Cell) :
    (setCell r c v).cells c = some v := by
  simp [setCell]

theorem setCell_cells_ne (r : Row) {c c' : String} (v : Cell) (h : c' ≠ c) :
    (setCell r c v).cells c' = r.cells c' := by
  simp [setCell, h]

theorem setCell_num_ne (r : Row) {c c' : String} (v : Cell) (h : c' ≠ c) :
    (setCell r c v).num c' = r.num c' := by
  simp [Row.num, setCell_cells_ne r v h]

@[simp] theorem setCell_num_self (r : Row) (c : String) (q : ℚ) :
    (setCell r c (Cell.num q)).num c = q := by
  simp [Row.num]


theorem setColPosAux_get? (c : String) (g : Nat → Cell) :
    ∀ (df : Frame) (n i : Nat),
      (setColPosAux c g n df).get? i
        = (df.get? i).map fun x => (x.1, setCell x.2 c (g (n + i)))
  | [], n, i => by simp [setColPosAux]
  | x :: xs, n, 0 => by simp [setColPosAux]
  | x :: xs, n, i + 1 => by
      have ih := setColPosAux_get? c g xs (n + 1) i
      have hn : n + 1 + i = n + (i + 1) := by omega
      rw [hn] at ih
      simpa [setColPosAux] using ih

theorem setColPos_get? (df : Frame) (c : String) (g : Nat → Cell) (i : Nat) :
    (setColPos df c g).get? i
      = (df.get? i).map fun x => (x.1, setCell x.2 c (g i)) := by
  have h := setColPosAux_get? c g df 0 i
  simpa [setColPos] using h

theorem mapCol_get? (df : Frame) (c : String) (f : Row → Cell) (i : Nat) :
    (mapCol df c f).get? i
      = (df.get? i).map fun x => (x.1, setCell x.2 c (f x.2)) := by
  simp [mapCol, List.get?_map]

theorem resetIndexAux_get? :
    ∀ (df : Frame) (n i : Nat),
      (resetIndexAux n df).get? i = (df.get? i).map fun x => (n + i, x.2)
  | [], n, i => by simp [resetIndexAux]
  | x :: xs, n, 0 => by simp [resetIndexAux]
  | x :: xs, n, i + 1 => by
      have ih := resetIndexAux_get? xs (n + 1) i
      have hn : n + 1 + i = n + (i + 1) := by omega
      rw [hn] at ih
      simpa [resetIndexAux] using ih

theorem resetIndex_get? (df : Frame) (i : Nat) :
    (resetIndex df).get? i = (df.get? i).map fun x => (i, x.2) := by
  have h := resetIndexAux_get? df 0 i
  simpa [resetIndex] using h

theorem labelsOk_resetIndex (df : Frame) : labelsOk (resetIndex df) := by
  intro i x h
  rw [resetIndex_get? df i] at h
  cases hd : df.get? i with
  | none => rw [hd] at h; simp at h
  | some y =>
      rw [hd] at h
      simp only [Option.map_some'] at h
      cases Option.some.inj h
      rfl

theorem labelsOk_setColPos {df : Frame} (h : labelsOk df) (c : String) (g : Nat → Cell) :
    labelsOk (setColPos df c g) := by
  intro i x hx
  rw [setColPos_get? df c g i] at hx
  cases hd : df.get? i with
  | none => rw [hd] at hx; simp at hx
  | some y =>
      rw [hd] at hx
      simp only [Option.map_some'] at hx
      cases Option.some.inj hx
      exact h i y hd

theorem labelsOk_mapCol {df : Frame} (h : labelsOk df) (c : String) (f : Row → Cell) :
    labelsOk (mapCol df c f) := by
  intro i x hx
  rw [mapCol_get? df c f i] at hx
  cases hd : df.get? i with
  | none => rw [hd] at hx; simp at hx
  | some y =>
      rw [hd] at hx
      simp only [Option.map_some'] at hx
      cases Option.some.inj hx
      exact h i y hd

theorem mem_whPositionsAux (p : Nat → Row → Bool) :
    ∀ (df : Frame) (n m : Nat),
      m ∈ whPositionsAux p n df
        ↔ ∃ j x, df.get? j = some x ∧ m = n + j ∧ p m x.2 = true := by
  intro df
  induction df with
  | nil => intro n m; simp [whPositionsAux]
  | cons x xs ih =>
      intro n m
      simp only [whPositionsAux]
      constructor
      · intro hm
        by_cases hp : p n x.2
        · rw [if_pos hp] at hm
          rcases List.mem_cons.mp hm with hm | hm
          · subst hm
            exact ⟨0, x, rfl, by omega, hp⟩
          · rcases (ih (n + 1) m).mp hm with ⟨j, y, hj, hmj, hpy⟩
            exact ⟨j + 1, y, hj, by omega, hpy⟩
        · rw [if_neg hp] at hm
          rcases (ih (n + 1) m).mp hm with ⟨j, y, hj, hmj, hpy⟩
          exact ⟨j + 1, y, hj, by omega, hpy⟩
      · rintro ⟨j, y, hj, hmj, hpy⟩
        cases j with
        | zero =>
            have hxy : x = y := Option.some.inj hj
            subst hxy
            have hmn : m = n := by omega
            subst hmn
            rw [if_pos hpy]
            exact List.mem_cons_self _ _
        | succ j' =>
            have hmem : m ∈ whPositionsAux p (n + 1) xs :=
              (ih (n + 1) m).mpr ⟨j', y, hj, by omega, hpy⟩
            by_cases hp : p n x.2
            · rw [if_pos hp]; exact List.mem_cons_of_mem _ hmem
            · rw [if_neg hp]; exact hmem

theorem mem_whPositions (df : Frame) (p : Nat → Row → Bool) (m : Nat) :
    m ∈ whPositions df p ↔ ∃ x, df.get? m = some x ∧ p m x.2 = true := by
  rw [whPositions, mem_whPositionsAux]
  constructor
  · rintro ⟨j, y, hj, hmj, hpy⟩
    have : m = j := by omega
    subst this
    exact ⟨y, hj, hpy⟩
  · rintro ⟨y, hy, hpy⟩
    exact ⟨m, y, hy, by omega, hpy⟩

theorem mem_dropLabels {df : Frame} {labs : List Nat} {x : Nat × Row}
    (h : x ∈ dropLabels df labs) : x ∈ df ∧ x.1 ∉ labs := by
  have := List.mem_filter.mp h
  refine ⟨this.1, ?_⟩
  have hb := this.2
  simp at hb
  exact hb

theorem mem_resetIndex {df : Frame} {x : Nat × Row} (h : x ∈ resetIndex df) :
    ∃ lab, (lab, x.2) ∈ df := by
  rcases List.mem_iff_get?.mp h with ⟨i, hi⟩
  rw [resetIndex_get? df i] at hi
  cases hd : df.get? i with
  | none => rw [hd] at hi; simp at hi
  | some y =>
      rw [hd] at hi
      simp only [Option.map_some'] at hi
      have hxy := Option.some.inj hi
      refine ⟨y.1, ?_⟩
      have h2 : x.2 = y.2 := by rw [← hxy]
      rw [h2]
      simpa using List.get?_mem hd

theorem mem_ilocSelect {df : Frame} {pos : List Nat} {x : Nat × Row}
    (h : x ∈ ilocSelect df pos) : x ∈ df := by
  rcases List.mem_filterMap.mp h with ⟨i, _, hi⟩
  exact List.get?_mem hi


theorem mem_setColPos {df : Frame} {c : String} {g : Nat → Cell} {x : Nat × Row}
    (h : x ∈ setColPos df c g) :
    ∃ i y, df.get? i = some y ∧ x = (y.1, setCell y.2 c (g i)) := by
  rcases List.mem_iff_get?.mp h with ⟨i, hi⟩
  rw [setColPos_get?] at hi
  cases hd : df.get? i with
  | none => rw [hd] at hi; simp at hi
  | some y =>
      rw [hd] at hi
      simp only [Option.map_some'] at hi
      exact ⟨i, y, hd, (Option.some.inj hi).symm⟩

theorem mem_mapCol {df : Frame} {c : String} {f : Row → Cell} {x : Nat × Row}
    (h : x ∈ mapCol df c f) :
    ∃ y, y ∈ df ∧ x = (y.1, setCell y.2 c (f y.2)) := by
  rcases List.mem_map.mp h with ⟨y, hy, hxy⟩
  exact ⟨y, hy, hxy.symm⟩

/-- A row surviving a drop-by-`np.where`-positions stage (on a frame whose
labels agree with positions) was a row of the input frame, and the drop
predicate was false on it. -/
theorem surviving_row {df : Frame} (hok : labelsOk df) (p : Nat → Row → Bool) {x : Nat × Row}
    (h : x ∈ resetIndex (dropLabels df (whPositions df p))) :
    ∃ lab, df.get? lab = some (lab, x.2) ∧ p lab x.2 = false := by
  obtain ⟨lab, hmem⟩ := mem_resetIndex h
  obtain ⟨hdf, hnot⟩ := mem_dropLabels hmem
  obtain ⟨i, hi⟩ := List.mem_iff_get?.mp hdf
  have hlab : lab = i := hok i _ hi
  subst hlab
  refine ⟨lab, hi, ?_⟩
  cases hb : p lab x.2 with
  | false => rfl
  | true => exact absurd ((mem_whPositions df p lab).mpr ⟨(lab, x.2), hi, hb⟩) hnot

theorem labelsOk_preSnrTable (M : Modules) (sdb : SurveyDB) (colors oifRaw : Frame) :
    labelsOk (preSnrTable M sdb colors oifRaw) := by
  unfold preSnrTable sigmaDegStage uncertaintiesStage translateStage
  exact labelsOk_mapCol
    (labelsOk_setColPos
      (labelsOk_setColPos
        (labelsOk_setColPos (labelsOk_setColPos (labelsOk_resetIndex _) _ _) _ _) _ _) _ _) _ _

theorem labelsOk_faintInput (M : Modules) (sdb : SurveyDB) (colors oifRaw : Frame) :
    labelsOk (trailingLossStage M sdb (photRandStage M (afterSnrTable M sdb colors oifRaw))) := by
  unfold trailingLossStage photRandStage afterSnrTable snrFilterStage
  exact labelsOk_setColPos (labelsOk_setColPos (labelsOk_resetIndex _) _ _) _ _

theorem labelsOk_astRandStage (M : Modules) {A : Frame} (h : labelsOk A) :
    labelsOk (astRandStage M A) := by
  unfold astRandStage
  exact labelsOk_setColPos
    (labelsOk_setColPos (labelsOk_mapCol (labelsOk_mapCol h _ _) _ _) _ _) _ _

theorem length_resetIndexAux : ∀ (df : Frame) (n : Nat),
    (resetIndexAux n df).length = df.length
  | [], _ => rfl
  | x :: xs, n => by simp [resetIndexAux, length_resetIndexAux xs (n + 1)]

theorem resetIndexAux_map_fst : ∀ (df : Frame) (n : Nat),
    (resetIndexAux n df).map Prod.fst = List.range' n df.length
  | [], n => by simp [resetIndexAux]
  | x :: xs, n => by
      simp [resetIndexAux, resetIndexAux_map_fst xs (n + 1), List.range'_succ]

theorem contiguous_resetIndex (df : Frame) : contiguous (resetIndex df) := by
  unfold contiguous resetIndex
  rw [length_resetIndexAux, resetIndexAux_map_fst, List.range_eq_range']

theorem ilocSelect_map_fst {df : Frame} (hok : labelsOk df) (pos : List Nat) :
    (ilocSelect df pos).map Prod.fst = pos.filter fun i => decide (i < df.length) := by
  induction pos with
  | nil => simp [ilocSelect]
  | cons i rest ih =>
      simp only [ilocSelect, List.filterMap_cons, List.filter_cons] at *
      cases hg : df.get? i with
      | none =>
          have hlen : df.length ≤ i := List.get?_eq_none.mp hg
          have hdec : decide (i < df.length) = false := by
            simp
            omega
          simp only [List.get?_eq_getElem?] at ih
          simp [hdec, ih]
      | some y =>
          have hi : y.1 = i := hok i y hg
          obtain ⟨hlt, -⟩ := List.get?_eq_some.mp hg
          have hdec : decide (i < df.length) = true := by
            simp
            omega
          simp only [List.get?_eq_getElem?] at ih
          simp [hdec, hi, ih]

theorem get_or_exit_ok_iff {c : Cfg} {s k m v : String} :
    get_or_exit c s k m = Except.ok v ↔ c s k = some v := by
  unfold get_or_exit
  cases c s k <;> simp

theorem getKeyRaw_ok_iff {c : Cfg} {s k v : String} :
    getKeyRaw c s k = Except.ok v ↔ c s k = some v := by
  unfold getKeyRaw
  cases c s k <;> simp

theorem pyInt_ok_iff {pint : String → Option Int} {v : String} {n : Int} :
    pyInt pint v = Except.ok n ↔ pint v = some n := by
  unfold pyInt
  cases pint v <;> simp

theorem pyFloat_ok_iff {pfloat : String → Option ℚ} {v : String} {q : ℚ} :
    pyFloat pfloat v = Except.ok q ↔ pfloat v = some q := by
  unfold pyFloat
  cases pfloat v <;> simp

/- ### Claim theorems -/

/-- C1: after the SNRFilter stage (lines 174-175 of `surveySimPP.py`), every
row remaining in the detection table has SNR strictly greater than 2.  The
drop condition is the literal `oif["SNR"] <= 2.`; the stage reads no
configuration value, so the threshold is independent of the parsed
`SSPDetectionEfficiency` parameter. -/
theorem snr_filter_keeps_only_snr_gt_two (M : Modules) (sdb : SurveyDB) (colors oifRaw : Frame) :
    ∀ x ∈ afterSnrTable M sdb colors oifRaw, 2 < x.2.num cSNR := by
  intro x hx
  have hok := labelsOk_preSnrTable M sdb colors oifRaw
  unfold afterSnrTable snrFilterStage at hx
  obtain ⟨lab, hget, hp⟩ := surviving_row hok _ hx
  exact lt_of_not_le (of_decide_eq_false hp)

/-- Witness: a concrete detection (SNR 10 under `M0`) survives the SNR filter
and indeed has SNR above 2. -/
theorem snr_filter_keeps_only_snr_gt_two_witness :
    2 < ((afterSnrTable M0 sdbW [] oifW).headD dRow).2.num cSNR := by
  obtain ⟨a, ha⟩ :=
    List.length_eq_one.mp (show (afterSnrTable M0 sdbW [] oifW).length = 1 by decide)
  have hmem : a ∈ afterSnrTable M0 sdbW [] oifW := by
    rw [ha]
    exact List.mem_singleton_self a
  have h2 := snr_filter_keeps_only_snr_gt_two M0 sdbW [] oifW a hmem
  rw [ha]
  simpa using h2

/-- C2: after the FaintDetectionFilter stage (lines 182-186), every row
remaining satisfies observed magnitude (`MaginFilter`) plus trailing loss
(`dmagDetect`) strictly below the five-sigma limiting magnitude looked up
from the pointing database by that row's `FieldID`. -/
theorem faint_filter_keeps_only_bright (M : Modules) (sdb : SurveyDB) (colors oifRaw : Frame) :
    ∀ x ∈ afterFaintTable M sdb colors oifRaw,
      x.2.num cMaginFilter + x.2.num cDmagDetect < sdb.fiveSigmaDepth (x.2.num cFieldID) := by
  intro x hx
  have hok := labelsOk_faintInput M sdb colors oifRaw
  unfold afterFaintTable faintFilterStage at hx
  obtain ⟨lab, hget, hp⟩ := surviving_row hok _ hx
  have hnum : numAt (trailingLossStage M sdb (photRandStage M (afterSnrTable M sdb colors oifRaw)))
      lab cFieldID = x.2.num cFieldID := by
    unfold numAt
    rw [hget]
  have hp2 : decide (sdb.fiveSigmaDepth (x.2.num cFieldID)
      ≤ x.2.num cMaginFilter + x.2.num cDmagDetect) = false := by
    rw [← hnum]
    exact hp
  exact lt_of_not_le (of_decide_eq_false hp2)

/-- Witness: a concrete detection (magnitude 20, trailing loss 0, limiting
magnitude 100 under `M0`/`sdbW`) survives the faint filter and satisfies the
strict inequality. -/
theorem faint_filter_keeps_only_bright_witness :
    ((afterFaintTable M0 sdbW [] oifW).headD dRow).2.num cMaginFilter
        + ((afterFaintTable M0 sdbW [] oifW).headD dRow).2.num cDmagDetect
      < sdbW.fiveSigmaDepth (((afterFaintTable M0 sdbW [] oifW).headD dRow).2.num cFieldID) := by
  obtain ⟨a, ha⟩ :=
    List.length_eq_one.mp (show (afterFaintTable M0 sdbW [] oifW).length = 1 by decide)
  have hmem : a ∈ afterFaintTable M0 sdbW [] oifW := by
    rw [ha]
    exact List.mem_singleton_self a
  have h2 := faint_filter_keeps_only_bright M0 sdbW [] oifW a hmem
  rw [ha]
  simpa using h2

/-- C6: the startup filter-list validation (lines 115-120) passes if and only
if `len(othercolours) == len(resfilters) - 1` (Python integer arithmetic)
and the configured main filter is the first entry of `resfilters`; when both
hold the run proceeds past this check.  The check is a single startup step
of `startupCfg`, evaluated once, before the detection table is ever read. -/
theorem checkFilters_none_iff (m : String) (oc rf : List String) :
    checkFilters m oc rf = none
      ↔ ((oc.length : ℤ) = (rf.length : ℤ) - 1 ∧ rf.head? = some m) := by
  unfold checkFilters
  split
  next hl =>
    simp only [List.head?]
    constructor
    · intro h
      exact absurd h (by simp)
    · rintro ⟨h, -⟩
      exact absurd h hl
  next hl =>
    rw [not_ne_iff] at hl
    split
    next =>
      exfalso
      simp at hl
    next f rest =>
      split
      next hm =>
        simp [List.head?, Ne.symm hm]
      next hm =>
        rw [not_ne_iff] at hm
        subst hm
        simp [List.head?, hl]

/-- C3 (amended): the detection table is reindexed to a contiguous 0..n-1
index after the SNR filter (line 175) and after the faint-detection filter
(line 186); the footprint filter (line 196, `oif = oif.iloc[on_sensor]`)
does NOT reindex: it keeps the selected rows under their existing labels,
so its output index is exactly the list of in-range positions returned by
`footPrintFilter`, not `0..n-1`. -/
theorem reindex_after_snr_and_faint_not_after_footprint (M : Modules) (sdb : SurveyDB)
    (colors pointings detectors oifRaw : Frame) :
    contiguous (afterSnrTable M sdb colors oifRaw) ∧
    contiguous (afterFaintTable M sdb colors oifRaw) ∧
    (afterFootprintTable M sdb colors pointings detectors oifRaw).map Prod.fst
      = (M.footPrintFilter (astRandStage M (afterFaintTable M sdb colors oifRaw))
            pointings detectors).filter
          fun i => decide (i < (astRandStage M (afterFaintTable M sdb colors oifRaw)).length) := by
  refine ⟨?_, ?_, ?_⟩
  · unfold afterSnrTable snrFilterStage
    exact contiguous_resetIndex _
  · unfold afterFaintTable faintFilterStage
    exact contiguous_resetIndex _
  · unfold afterFootprintTable footprintStage
    refine ilocSelect_map_fst (labelsOk_astRandStage M ?_) _
    unfold afterFaintTable faintFilterStage
    exact labelsOk_resetIndex _

/-- C3 counterexample: with footprint behaviour keeping only position 1
(`Mcex`) on a two-detection catalogue that passes both magnitude filters,
the table after the FootprintFilter has index `[1]` — not contiguous
0..n-1, refuting the claim for the FootprintFilter stage. -/
theorem footprint_not_reindexed_cex :
    ¬ contiguous (afterFootprintTable Mcex sdbW [] [] [] oifW2) := by
  unfold contiguous
  decide

/-- C4 (code bug): startup validates and stores the configured
`camerafootprint` path (line 108), but line 162 loads the detector corners
from the string literal `'detectors_corners.csv'`.  Under a configuration
overriding the path to `my_footprint.csv`, and for every module behaviour
and file system, the run's file accesses are the default detection
catalogue, pointing database, colour table, and `detectors_corners.csv` —
the configured footprint path is never read. -/
theorem camerafootprint_path_ignored (M : Modules) (W : World) :
    (run M W cfgFoot pint0 pfloat0).2
        = [ "test.csv", "baseline_nexp2_v1.7.1_10yrs.db", "test_colors.csv",
            "detectors_corners.csv" ] ∧
    footprintOf (startup cfgFoot pint0 pfloat0) = "my_footprint.csv" ∧
    (startup cfgFoot pint0 pfloat0).isOk = true := by
  refine ⟨rfl, by decide, by decide⟩

/-- C9: a configuration file without a `GENERAL` section (or without its
`testvalue` key) makes line 103 raise an uncaught `KeyError` — not a
`sys.exit` with a descriptive message — and the run aborts before any input
file is read (empty file-access trace). -/
theorem missing_testvalue_uncaught_keyerror (M : Modules) (W : World) (user : Cfg)
    (pint : String → Option Int) (pfloat : String → Option ℚ)
    (h : user sGENERAL kTestvalue = none) :
    run M W user pint pfloat = (Except.error (Fatal.keyError sGENERAL kTestvalue), []) := by
  have hd : effConfig user sGENERAL kTestvalue = none := by
    unfold effConfig
    rw [h]
    rfl
  have hg : getKeyRaw (effConfig user) sGENERAL kTestvalue
      = Except.error (Fatal.keyError sGENERAL kTestvalue) := by
    unfold getKeyRaw
    rw [hd]
  have hs : startup user pint pfloat = Except.error (Fatal.keyError sGENERAL kTestvalue) := by
    unfold startup startupCfg
    rw [hg]
  unfold run
  rw [hs]

/-- Witness: the empty configuration triggers the uncaught `KeyError` with
an empty file-access trace. -/
theorem missing_testvalue_uncaught_keyerror_witness :
    run M0 W0 cfgNone pint0 pfloat0
      = (Except.error (Fatal.keyError sGENERAL kTestvalue), []) :=
  missing_testvalue_uncaught_keyerror M0 W0 cfgNone pint0 pfloat0 rfl

theorem num_congr {r r' : Row} {c : String} (h : r.cells c = r'.cells c) :
    r.num c = r'.num c := by
  unfold Row.num
  rw [h]

theorem setCell_cell_ne (r : Row) {c c' : String} (v : Cell) (h : c' ≠ c) :
    (setCell r c v).cell c' = r.cell c' := by
  unfold Row.cell
  rw [setCell_cells_ne r v h]

/-- Provenance of a final-table row through the stages after the
faint-detection filter (lines 189-200): it stems from a row of the frame
entering the astrometric randomizer, with the same label, with the
true-coordinate copies installed by lines 189-190, and with every column
other than the ones written by lines 189-199 unchanged. -/
theorem final_row_provenance (M : Modules) (sdb : SurveyDB) (pointings detectors A : Frame) :
    ∀ x ∈ assembleStage sdb (footprintStage M pointings detectors (astRandStage M A)),
      ∃ y ∈ A, x.1 = y.1 ∧
        x.2.cells cAstRATrue = some (y.2.cell cAstRA) ∧
        x.2.cells cAstDecTrue = some (y.2.cell cAstDec) ∧
        ∀ c, c ≠ cAstRATrue → c ≠ cAstDecTrue → c ≠ cAstRA → c ≠ cAstDec →
          c ≠ cFieldID → c ≠ cFilter → x.2.cells c = y.2.cells c := by
  intro x hx
  unfold assembleStage at hx
  obtain ⟨i6, y6, hg6, hx6⟩ := mem_setColPos hx
  obtain ⟨y5, hy5, hy6e⟩ := mem_mapCol (List.get?_mem hg6)
  unfold footprintStage at hy5
  have hy5m := mem_ilocSelect hy5
  unfold astRandStage at hy5m
  obtain ⟨i4, y4, hg4, hy5e⟩ := mem_setColPos hy5m
  obtain ⟨i3, y3, hg3, hy4e⟩ := mem_setColPos (List.get?_mem hg4)
  obtain ⟨y2, hy2, hy3e⟩ := mem_mapCol (List.get?_mem hg3)
  obtain ⟨y1, hy1, hy2e⟩ := mem_mapCol hy2
  subst hx6
  subst hy6e
  subst hy5e
  subst hy4e
  subst hy3e
  subst hy2e
  refine ⟨y1, hy1, rfl, ?_, ?_, ?_⟩
  · simp only [setCell_cells_ne _ _ (show cAstRATrue ≠ cFilter by decide),
      setCell_cells_ne _ _ (show cAstRATrue ≠ cFieldID by decide),
      setCell_cells_ne _ _ (show cAstRATrue ≠ cAstDec by decide),
      setCell_cells_ne _ _ (show cAstRATrue ≠ cAstRA by decide),
      setCell_cells_ne _ _ (show cAstRATrue ≠ cAstDecTrue by decide),
      setCell_cells_self]
  · simp only [setCell_cells_ne _ _ (show cAstDecTrue ≠ cFilter by decide),
      setCell_cells_ne _ _ (show cAstDecTrue ≠ cFieldID by decide),
      setCell_cells_ne _ _ (show cAstDecTrue ≠ cAstDec by decide),
      setCell_cells_ne _ _ (show cAstDecTrue ≠ cAstRA by decide),
      setCell_cells_self,
      setCell_cell_ne _ _ (show cAstDec ≠ cAstRATrue by decide)]
  · intro c h1 h2 h3 h4 h5 h6
    simp only [setCell_cells_ne _ _ h6, setCell_cells_ne _ _ h5,
      setCell_cells_ne _ _ h4, setCell_cells_ne _ _ h3,
      setCell_cells_ne _ _ h2, setCell_cells_ne _ _ h1]

/-- Provenance of a faint-filter-surviving row back through the
photometric-randomizer and trailing-loss stages: every column other than
`MaginFilter` and `dmagDetect` is unchanged from some row of the table
produced by line 172. -/
theorem faint_row_provenance (M : Modules) (sdb : SurveyDB) (colors oifRaw : Frame) :
    ∀ x ∈ afterFaintTable M sdb colors oifRaw,
      ∃ y ∈ preSnrTable M sdb colors oifRaw,
        ∀ c, c ≠ cMaginFilter → c ≠ cDmagDetect → x.2.cells c = y.2.cells c := by
  intro x hx
  unfold afterFaintTable faintFilterStage at hx
  obtain ⟨lab, hget, -⟩ := surviving_row (labelsOk_faintInput M sdb colors oifRaw) _ hx
  have hmem := List.get?_mem hget
  unfold trailingLossStage at hmem
  obtain ⟨i2, y2, hg2, he2⟩ := mem_setColPos hmem
  unfold photRandStage at hg2
  obtain ⟨i1, y1, hg1, he1⟩ := mem_setColPos (List.get?_mem hg2)
  have hmem1 := List.get?_mem hg1
  unfold afterSnrTable snrFilterStage at hmem1
  obtain ⟨lab1, hget1, -⟩ := surviving_row (labelsOk_preSnrTable M sdb colors oifRaw) _ hmem1
  refine ⟨(lab1, y1.2), List.get?_mem hget1, ?_⟩
  intro c h1 h2
  have hx2 : x.2 = setCell y2.2 cDmagDetect (Cell.num (M.PPTrailingLoss
      (setColPos (afterSnrTable M sdb colors oifRaw) cMaginFilter fun i =>
        Cell.num (M.randomizePhotometry (afterSnrTable M sdb colors oifRaw) i)) sdb i2)) :=
    congrArg Prod.snd he2
  have hy22 : y2.2 = setCell y1.2 cMaginFilter
      (Cell.num (M.randomizePhotometry (afterSnrTable M sdb colors oifRaw) i1)) :=
    congrArg Prod.snd he1
  rw [hx2, setCell_cells_ne _ _ h2, hy22, setCell_cells_ne _ _ h1]

/-- Every row of the table produced by line 172 satisfies the sigma
conversion and carries the `AstrometricSigma(mas)` column assigned at line
171. -/
theorem preSnr_row_sigma (M : Modules) (sdb : SurveyDB) (colors oifRaw : Frame) :
    ∀ x ∈ preSnrTable M sdb colors oifRaw,
      x.2.num cAstrometricSigmaDeg = x.2.num cAstrometricSigmaMas / 3600000 ∧
      (x.2.cells cAstrometricSigmaMas).isSome = true := by
  intro x hx
  unfold preSnrTable sigmaDegStage at hx
  obtain ⟨y, hy, he⟩ := mem_mapCol hx
  subst he
  constructor
  · have h1 := setCell_num_self y.2 cAstrometricSigmaDeg
      (y.2.num cAstrometricSigmaMas / 3600 / 1000)
    have h2 := setCell_num_ne y.2
      (Cell.num (y.2.num cAstrometricSigmaMas / 3600 / 1000))
      (show cAstrometricSigmaMas ≠ cAstrometricSigmaDeg by decide)
    simp only [h1, h2]
    rw [div_div]
    norm_num
  · unfold uncertaintiesStage at hy
    obtain ⟨i3, z3, hgz3, hez3⟩ := mem_setColPos hy
    obtain ⟨i2, z2, hgz2, hez2⟩ := mem_setColPos (List.get?_mem hgz3)
    obtain ⟨i1, z1, hgz1, hez1⟩ := mem_setColPos (List.get?_mem hgz2)
    subst hez3
    subst hez2
    subst hez1
    simp only [setCell_cells_ne _ _ (show cAstrometricSigmaMas ≠ cAstrometricSigmaDeg by decide),
      setCell_cells_ne _ _ (show cAstrometricSigmaMas ≠ cSNR by decide),
      setCell_cells_ne _ _ (show cAstrometricSigmaMas ≠ cPhotometricSigmaMag by decide),
      setCell_cells_self, Option.isSome_some]

/-- C7: for every row of the final output table, the astrometric uncertainty
in degrees equals the uncertainty in milliarcseconds divided by 3600000
(line 172 computes `/3600/1000`; the two columns are written nowhere else).
Arithmetic is modelled exactly over ℚ. -/
theorem sigma_deg_is_mas_div_3600000 (M : Modules) (sdb : SurveyDB)
    (colors pointings detectors oifRaw : Frame) :
    ∀ x ∈ pipelineTable M sdb colors pointings detectors oifRaw,
      x.2.num cAstrometricSigmaDeg = x.2.num cAstrometricSigmaMas / 3600000 := by
  intro x hx
  unfold pipelineTable afterFootprintTable at hx
  obtain ⟨y, hy, -, -, -, hcells⟩ := final_row_provenance M sdb pointings detectors _ x hx
  obtain ⟨z, hz, hcells2⟩ := faint_row_provenance M sdb colors oifRaw y hy
  obtain ⟨hdeg, -⟩ := preSnr_row_sigma M sdb colors oifRaw z hz
  have e1 : x.2.cells cAstrometricSigmaDeg = z.2.cells cAstrometricSigmaDeg := by
    rw [hcells _ (by decide) (by decide) (by decide) (by decide) (by decide) (by decide),
      hcells2 _ (by decide) (by decide)]
  have e2 : x.2.cells cAstrometricSigmaMas = z.2.cells cAstrometricSigmaMas := by
    rw [hcells _ (by decide) (by decide) (by decide) (by decide) (by decide) (by decide),
      hcells2 _ (by decide) (by decide)]
  rw [num_congr e1, num_congr e2]
  exact hdeg

/-- Witness: the surviving concrete detection's output row satisfies the
exact conversion. -/
theorem sigma_deg_is_mas_div_3600000_witness :
    ((pipelineTable M0 sdbW [] [] [] oifW).headD dRow).2.num cAstrometricSigmaDeg
      = ((pipelineTable M0 sdbW [] [] [] oifW).headD dRow).2.num cAstrometricSigmaMas
          / 3600000 := by
  obtain ⟨a, ha⟩ :=
    List.length_eq_one.mp (show (pipelineTable M0 sdbW [] [] [] oifW).length = 1 by decide)
  have hmem : a ∈ pipelineTable M0 sdbW [] [] [] oifW := by
    rw [ha]
    exact List.mem_singleton_self a
  have h2 := sigma_deg_is_mas_div_3600000 M0 sdbW [] [] [] oifW a hmem
  rw [ha]
  simpa using h2

/-- C8: the final output table still contains the `AstrometricSigma(mas)`
column: the `oif.drop(columns=...)` at line 200 is not in place and its
result is discarded, so every written row still carries the column assigned
at line 171. -/
theorem sigma_mas_column_still_present (M : Modules) (sdb : SurveyDB)
    (colors pointings detectors oifRaw : Frame) :
    ∀ x ∈ pipelineTable M sdb colors pointings detectors oifRaw,
      (x.2.cells cAstrometricSigmaMas).isSome = true := by
  intro x hx
  unfold pipelineTable afterFootprintTable at hx
  obtain ⟨y, hy, -, -, -, hcells⟩ := final_row_provenance M sdb pointings detectors _ x hx
  obtain ⟨z, hz, hcells2⟩ := faint_row_provenance M sdb colors oifRaw y hy
  obtain ⟨-, hsome⟩ := preSnr_row_sigma M sdb colors oifRaw z hz
  rw [hcells _ (by decide) (by decide) (by decide) (by decide) (by decide) (by decide),
    hcells2 _ (by decide) (by decide)]
  exact hsome

/-- Witness: the concrete surviving detection's output row carries the
column. -/
theorem sigma_mas_column_still_present_witness :
    (((pipelineTable M0 sdbW [] [] [] oifW).headD dRow).2.cells
        cAstrometricSigmaMas).isSome = true := by
  obtain ⟨a, ha⟩ :=
    List.length_eq_one.mp (show (pipelineTable M0 sdbW [] [] [] oifW).length = 1 by decide)
  have hmem : a ∈ pipelineTable M0 sdbW [] [] [] oifW := by
    rw [ha]
    exact List.mem_singleton_self a
  have h2 := sigma_mas_column_still_present M0 sdbW [] [] [] oifW a hmem
  rw [ha]
  simpa using h2

/-- C10: every row of the final output table descends from a row of the
table entering the astrometric randomizer (lines 189-191) with the same
index label, and its `AstRATrue(deg)`/`AstDecTrue(deg)` columns hold that
row's pre-randomization `AstRA(deg)`/`AstDec(deg)` values, unchanged by
the footprint filter and the result assembly. -/
theorem astrometric_true_coords_preserved (M : Modules) (sdb : SurveyDB)
    (colors pointings detectors oifRaw : Frame) :
    ∀ x ∈ pipelineTable M sdb colors pointings detectors oifRaw,
      ∃ y ∈ afterFaintTable M sdb colors oifRaw, x.1 = y.1 ∧
        x.2.cells cAstRATrue = some (y.2.cell cAstRA) ∧
        x.2.cells cAstDecTrue = some (y.2.cell cAstDec) := by
  intro x hx
  unfold pipelineTable afterFootprintTable at hx
  obtain ⟨y, hy, h1, h2, h3, -⟩ := final_row_provenance M sdb pointings detectors _ x hx
  exact ⟨y, hy, h1, h2, h3⟩

/-- Witness: the concrete surviving detection's output row indeed carries
true coordinates copied from its pre-randomization row. -/
theorem astrometric_true_coords_preserved_witness :
    ∃ y ∈ afterFaintTable M0 sdbW [] oifW,
      ((pipelineTable M0 sdbW [] [] [] oifW).headD dRow).1 = y.1 ∧
      ((pipelineTable M0 sdbW [] [] [] oifW).headD dRow).2.cells cAstRATrue
        = some (y.2.cell cAstRA) ∧
      ((pipelineTable M0 sdbW [] [] [] oifW).headD dRow).2.cells cAstDecTrue
        = some (y.2.cell cAstDec) := by
  obtain ⟨a, ha⟩ :=
    List.length_eq_one.mp (show (pipelineTable M0 sdbW [] [] [] oifW).length = 1 by decide)
  have hmem : a ∈ pipelineTable M0 sdbW [] [] [] oifW := by
    rw [ha]
    exact List.mem_singleton_self a
  have h2 := astrometric_true_coords_preserved M0 sdbW [] [] [] oifW a hmem
  rw [ha]
  simpa using h2

/-- Under a successful startup, the three input paths actually used by the
pipeline are exactly the (merged) configuration values at their keys. -/
theorem startupCfg_ok_inputs {config : Cfg} {pint : String → Option Int}
    {pfloat : String → Option ℚ} {p : Params}
    (h : startupCfg config pint pfloat = Except.ok p) :
    config sINPUTFILES kOifoutput = some p.oifoutput ∧
    config sINPUTFILES kColourinput = some p.colourinput ∧
    config sINPUTFILES kPointingdatabase = some p.pointingdatabase := by
  unfold startupCfg at h
  repeat' (first
    | exact Except.noConfusion h
    | split at h)
  injection h with h
  subst h
  refine ⟨?_, ?_, ?_⟩ <;> simp_all only [get_or_exit_ok_iff, getKeyRaw_ok_iff]

/-- C5: two runs whose configurations differ only in the values of the
`SSPDetectionEfficiency` and `fillfactor` keys — with the same module
behaviour (hence the same random streams), file system and value parsers,
and with both startups succeeding — produce identical results (final
detection table and file accesses): `run` parses the two values (lines
122-123) but never uses them. -/
theorem ssp_fillfactor_no_influence (M : Modules) (W : World) (c1 c2 : Cfg)
    (pint : String → Option Int) (pfloat : String → Option ℚ)
    (hagree : ∀ s k,
      ¬(s = sFILTERINGPARAMETERS ∧ (k = kSSPDetectionEfficiency ∨ k = kFillfactor)) →
      c1 s k = c2 s k)
    (h1 : (startup c1 pint pfloat).isOk = true)
    (h2 : (startup c2 pint pfloat).isOk = true) :
    run M W c1 pint pfloat = run M W c2 pint pfloat := by
  cases hs1 : startup c1 pint pfloat with
  | error e =>
      rw [hs1] at h1
      exact Bool.noConfusion h1
  | ok p1 =>
  cases hs2 : startup c2 pint pfloat with
  | error e =>
      rw [hs2] at h2
      exact Bool.noConfusion h2
  | ok p2 =>
  have hs1' : startupCfg (effConfig c1) pint pfloat = Except.ok p1 := hs1
  have hs2' : startupCfg (effConfig c2) pint pfloat = Except.ok p2 := hs2
  obtain ⟨ho1, hc1, hp1⟩ := startupCfg_ok_inputs hs1'
  obtain ⟨ho2, hc2, hp2⟩ := startupCfg_ok_inputs hs2'
  have heq : ∀ k, k = kOifoutput ∨ k = kColourinput ∨ k = kPointingdatabase →
      effConfig c1 sINPUTFILES k = effConfig c2 sINPUTFILES k := by
    intro k hk
    unfold effConfig
    rw [hagree sINPUTFILES k (fun hcon => by
      have := hcon.1
      exact absurd this (by decide))]
  have f1 : p1.oifoutput = p2.oifoutput := by
    have h := heq kOifoutput (Or.inl rfl)
    rw [ho1, ho2] at h
    exact Option.some.inj h
  have f2 : p1.colourinput = p2.colourinput := by
    have h := heq kColourinput (Or.inr (Or.inl rfl))
    rw [hc1, hc2] at h
    exact Option.some.inj h
  have f3 : p1.pointingdatabase = p2.pointingdatabase := by
    have h := heq kPointingdatabase (Or.inr (Or.inr rfl))
    rw [hp1, hp2] at h
    exact Option.some.inj h
  unfold run
  rw [hs1, hs2]
  simp only [f1, f2, f3]

/-- Witness: overriding `SSPDetectionEfficiency` from its default 1.0 to 0.5
(configuration `cfgSsp` versus `cfgG`) leaves the whole run result
unchanged. -/
theorem ssp_fillfactor_no_influence_witness :
    run M0 W0 cfgG pint0 pfloat0 = run M0 W0 cfgSsp pint0 pfloat0 := by
  refine ssp_fillfactor_no_influence M0 W0 cfgG cfgSsp pint0 pfloat0 ?_ (by decide) (by decide)
  intro s k hk
  unfold cfgSsp
  rw [if_neg fun hcon => hk ⟨hcon.1, Or.inl hcon.2⟩]

end SurveySimPP
